import Mathlib

/-!
Verification of the smart-contacts repository: a shallow embedding of the
contact data model (Contact.js), the repository operations of
ContactManager.js (add, update, delete, filter, load, persistence with
rollback), the AES-GCM envelope layer of Crypto.js, and the form
validation of AddContactModal.js.

External browser collaborators (Web Crypto AES-GCM, btoa and atob base64,
TextEncoder and TextDecoder, the JSON builtins) are modelled as explicit
function parameters collected in a record; theorems about compositions
through them take the collaborators' contracts as hypotheses stated at the
values actually used. Timestamps are modelled as natural numbers, randomly
generated ids and nonces as explicit parameters, and the success of a
localStorage write as a boolean parameter, making every operation a pure
function of its inputs.
-/

/-- Contact data model, from the Contact class constructor: an id, four
string attributes and a creation timestamp (Date modelled as Nat). -/
structure Contact where
  id : String
  name : String
  phone : String
  address : String
  category : String
  createdAt : Nat
deriving Repr, DecidableEq

/-- Input object for addContact, as assembled by the UI form: the four
user-supplied string fields, no id and no timestamp. -/
structure ContactData where
  name : String
  phone : String
  address : String
  category : String
deriving Repr, DecidableEq

/-- Input object for updateContact: each field may be present or absent
(absent models the JavaScript value undefined). It carries no id field. -/
structure UpdateData where
  name : Option String
  phone : Option String
  address : Option String
  category : Option String
deriving Repr, DecidableEq

/-- A plain serialized record, as produced by Contact.toJSON and as parsed
back from storage by loadFromStorage. A field whose value is absent or not
a string is modelled as none. The createdAt field models the ISO timestamp
string by the instant it denotes. -/
structure RawItem where
  id : Option String
  name : Option String
  phone : Option String
  address : Option String
  category : Option String
  createdAt : Option Nat
deriving Repr, DecidableEq

/-- Contact.toJSON: every field serialized, all present. -/
def Contact.toJSON (c : Contact) : RawItem :=
  { id := some c.id, name := some c.name, phone := some c.phone,
    address := some c.address, category := some c.category,
    createdAt := some c.createdAt }

/-- The Contact constructor applied to a parsed item, followed by the two
fixups in loadFromStorage: options.id falsy (absent or empty) draws a fresh
generated id; createdAt present overrides the construction-time clock;
address missing defaults to the empty string. -/
def Contact.ofItem (freshId : String) (now : Nat) (it : RawItem) : Contact :=
  { id := match it.id with
      | some i => if i == "" then freshId else i
      | none => freshId,
    name := it.name.getD "",
    phone := it.phone.getD "",
    address := it.address.getD "",
    category := it.category.getD "",
    createdAt := it.createdAt.getD now }

/-- The validation applied by loadFromStorage to each parsed entry:
name, phone and category must be strings (modelled: present). -/
def RawItem.isValid (it : RawItem) : Bool :=
  it.name.isSome && it.phone.isSome && it.category.isSome

/-- The Contact constructor for a fresh add: no id supplied, so the
generated one is used; createdAt is the current clock. -/
def Contact.create (freshId : String) (now : Nat) (d : ContactData) : Contact :=
  { id := freshId, name := d.name, phone := d.phone,
    address := d.address, category := d.category, createdAt := now }

/-- Result object of the three mutation operations: success carrying the
contact, or failure carrying the human-readable error string. -/
inductive OpResult where
  | success (c : Contact)
  | failure (error : String)
deriving Repr, DecidableEq

/-- Whether a result object reports success. -/
def OpResult.isSuccess : OpResult → Bool
  | .success _ => true
  | .failure _ => false

/-- Equality test of a contact field against a possibly-undefined
JavaScript value: a string triple-equals undefined is always false. -/
def optEqStr (s : String) (o : Option String) : Bool :=
  match o with
  | some t => s == t
  | none => false

/-- ContactManager.hasDuplicate: some contact has the given name and
category and an id different from excludeId (a string id is never
strictly equal to null, the default excludeId). -/
def hasDuplicate (cs : List Contact) (name category : Option String)
    (excludeId : Option String) : Bool :=
  cs.any fun c =>
    optEqStr c.name name && optEqStr c.category category &&
      (match excludeId with
       | none => true
       | some e => c.id != e)

/-- Array.prototype.findIndex, as an Option-valued index. -/
def jsFindIndex {α : Type} (p : α → Bool) : List α → Option Nat
  | [] => none
  | x :: xs => if p x then some 0 else (jsFindIndex p xs).map (· + 1)

/-- splice(i, 1): remove the element at index i. -/
def spliceOut {α : Type} (l : List α) (i : Nat) : List α :=
  l.take i ++ l.drop (i + 1)

/-- splice(i, 0, a): insert a at index i. -/
def spliceIn {α : Type} (l : List α) (i : Nat) (a : α) : List α :=
  l.take i ++ a :: l.drop i

/-- ContactManager.addContact. The saveOk parameter models the boolean
outcome of the awaited saveToStorage call; push models Array.push and the
rollback removes the last element as Array.pop does. Returns the result
object together with the in-memory collection after the call. -/
def addContact (freshId : String) (now : Nat) (saveOk : Bool)
    (cs : List Contact) (d : ContactData) : OpResult × List Contact :=
  if hasDuplicate cs (some d.name) (some d.category) none then
    (.failure ("已存在同名同类别的联系人: " ++ d.name), cs)
  else
    let c := Contact.create freshId now d
    let pushed := cs ++ [c]
    if saveOk then
      (.success c, pushed)
    else
      (.failure "保存失败，请重试", pushed.dropLast)

/-- ContactManager.deleteContact: find the index, splice the record out,
and on persistence failure splice it back in at the same index. -/
def deleteContact (saveOk : Bool) (cs : List Contact) (id : String) :
    OpResult × List Contact :=
  match jsFindIndex (fun c => c.id == id) cs with
  | none => (.failure "联系人不存在", cs)
  | some i =>
    match cs[i]? with
    | none => (.failure "联系人不存在", cs)
    | some deleted =>
      let removed := spliceOut cs i
      if saveOk then
        (.success deleted, removed)
      else
        (.failure "删除失败，请重试", spliceIn removed i deleted)

/-- The replacement contact built by updateContact: the Contact
constructor applied to the original record's serialization spread-merged
with the update data (a field absent from the data keeps the original
value; the constructor regenerates an id only when the merged id is
falsy), followed by the explicit restoration of the original creation
time. -/
def mergeUpdate (freshId : String) (data : UpdateData) (orig : Contact) : Contact :=
  { id := if orig.id == "" then freshId else orig.id,
    name := data.name.getD orig.name,
    phone := data.phone.getD orig.phone,
    address := data.address.getD orig.address,
    category := data.category.getD orig.category,
    createdAt := orig.createdAt }

/-- ContactManager.updateContact: find the index, re-check the duplicate
invariant excluding the updated id, build the replacement contact, replace
in place, and on persistence failure put the original object back. -/
def updateContact (freshId : String) (now : Nat) (saveOk : Bool)
    (cs : List Contact) (id : String) (data : UpdateData) :
    OpResult × List Contact :=
  match jsFindIndex (fun c => c.id == id) cs with
  | none => (.failure "联系人不存在", cs)
  | some i =>
    if hasDuplicate cs data.name data.category (some id) then
      (.failure ("已存在同名同类别的联系人: " ++ data.name.getD "undefined"), cs)
    else
      match cs[i]? with
      | none => (.failure "联系人不存在", cs)
      | some orig =>
        let replaced := cs.set i (mergeUpdate freshId data orig)
        if saveOk then
          (.success (mergeUpdate freshId data orig), replaced)
        else
          (.failure "更新失败，请重试", replaced.set i orig)

/-! Helper lemmas about list surgery, shared by the rollback and frame
theorems. -/

lemma list_set_getElem_self {α : Type} :
    ∀ (l : List α) (i : Nat) (a : α), l[i]? = some a → l.set i a = l := by
  intro l
  induction l with
  | nil => intro i a h; simp at h
  | cons x xs ih =>
    intro i a h
    cases i with
    | zero => simp at h; simp [h]
    | succ j => simp at h; simp [List.set, ih j a h]

lemma spliceIn_spliceOut {α : Type} :
    ∀ (l : List α) (i : Nat) (a : α),
      l[i]? = some a → spliceIn (spliceOut l i) i a = l := by
  intro l
  induction l with
  | nil => intro i a h; simp at h
  | cons x xs ih =>
    intro i a h
    cases i with
    | zero =>
      simp at h
      simp [spliceOut, spliceIn, h]
    | succ j =>
      simp at h
      have := ih j a h
      simp [spliceOut, spliceIn] at this ⊢
      exact this

lemma jsFindIndex_some {α : Type} (p : α → Bool) :
    ∀ (l : List α) (i : Nat), jsFindIndex p l = some i →
      ∃ a, l[i]? = some a ∧ p a = true := by
  intro l
  induction l with
  | nil => intro i h; simp [jsFindIndex] at h
  | cons x xs ih =>
    intro i h
    by_cases hx : p x
    · simp [jsFindIndex, hx] at h
      subst h
      exact ⟨x, by simp, hx⟩
    · simp [jsFindIndex, hx] at h
      obtain ⟨j, hj, hji⟩ := h
      obtain ⟨a, ha, hpa⟩ := ih j hj
      subst hji
      exact ⟨a, by simpa using ha, hpa⟩

/-- Claim C1: if the persistence step fails, addContact, updateContact and
deleteContact each return a failure result and leave the in-memory
collection exactly equal to its state before the call; in particular the
delete rollback reinserts the removed record at its original index, so the
final collection is the original one, order included. -/
theorem C1_rollback_restores_collection (freshId : String) (now : Nat)
    (cs : List Contact) (d : ContactData) (uid did : String)
    (data : UpdateData) :
    ((addContact freshId now false cs d).1.isSuccess = false ∧
      (addContact freshId now false cs d).2 = cs) ∧
    ((updateContact freshId now false cs uid data).1.isSuccess = false ∧
      (updateContact freshId now false cs uid data).2 = cs) ∧
    ((deleteContact false cs did).1.isSuccess = false ∧
      (deleteContact false cs did).2 = cs) := by
  refine ⟨?_, ?_, ?_⟩
  · unfold addContact
    cases h : hasDuplicate cs (some d.name) (some d.category) none
    · simp [OpResult.isSuccess, List.dropLast_concat]
    · simp [OpResult.isSuccess]
  · unfold updateContact
    cases hf : jsFindIndex (fun c => c.id == uid) cs with
    | none => simp [OpResult.isSuccess]
    | some i =>
      cases hd : hasDuplicate cs data.name data.category (some uid)
      · cases hg : cs[i]? with
        | none => simp [hd, hg, OpResult.isSuccess]
        | some orig =>
          simp only [hd, hg, Bool.false_eq_true, if_false, OpResult.isSuccess]
          refine ⟨trivial, ?_⟩
          rw [List.set_set]
          exact list_set_getElem_self cs i orig hg
      · simp [hd, OpResult.isSuccess]
  · unfold deleteContact
    cases hf : jsFindIndex (fun c => c.id == did) cs with
    | none => simp [OpResult.isSuccess]
    | some i =>
      cases hg : cs[i]? with
      | none => simp [hg, OpResult.isSuccess]
      | some del =>
        simp only [hg, Bool.false_eq_true, if_false, OpResult.isSuccess]
        exact ⟨trivial, spliceIn_spliceOut cs i del hg⟩

lemma updateContact_success_inv (freshId : String) (now : Nat) (saveOk : Bool)
    (cs : List Contact) (uid : String) (data : UpdateData)
    (hsucc : (updateContact freshId now saveOk cs uid data).1.isSuccess = true) :
    ∃ i orig, jsFindIndex (fun c => c.id == uid) cs = some i ∧
      cs[i]? = some orig ∧
      hasDuplicate cs data.name data.category (some uid) = false ∧
      saveOk = true ∧
      (updateContact freshId now saveOk cs uid data).2 =
        cs.set i (mergeUpdate freshId data orig) := by
  unfold updateContact at hsucc ⊢
  cases hf : jsFindIndex (fun c => c.id == uid) cs with
  | none => rw [hf] at hsucc; simp [OpResult.isSuccess] at hsucc
  | some i =>
    rw [hf] at hsucc
    cases hd : hasDuplicate cs data.name data.category (some uid)
    · simp only [hd, Bool.false_eq_true, if_false] at hsucc
      cases hg : cs[i]? with
      | none => rw [hg] at hsucc; simp [OpResult.isSuccess] at hsucc
      | some orig =>
        rw [hg] at hsucc
        cases hsave : saveOk
        · rw [hsave] at hsucc; simp [OpResult.isSuccess] at hsucc
        · subst hsave
          refine ⟨i, orig, rfl, hg, rfl, rfl, ?_⟩
          simp [hd, hg]
    · simp only [hd, if_true] at hsucc
      simp [OpResult.isSuccess] at hsucc
/-- The compound uniqueness invariant of the data model: no two contacts
share both the same name and the same category. -/
def NameCatUnique (cs : List Contact) : Prop :=
  cs.Pairwise fun a b => ¬(a.name = b.name ∧ a.category = b.category)

instance (cs : List Contact) : Decidable (NameCatUnique cs) := by
  unfold NameCatUnique; infer_instance

/-- Pairwise distinctness of contact ids (the generated ids are unique
with overwhelming probability; the spec calls a collision a bug). -/
def IdsDistinct (cs : List Contact) : Prop :=
  cs.Pairwise fun a b => a.id ≠ b.id

instance (cs : List Contact) : Decidable (IdsDistinct cs) := by
  unfold IdsDistinct; infer_instance

lemma hasDuplicate_none_eq_false (cs : List Contact) (n cat : String) :
    hasDuplicate cs (some n) (some cat) none = false ↔
      ∀ c ∈ cs, ¬(c.name = n ∧ c.category = cat) := by
  simp [hasDuplicate, optEqStr, List.any_eq_false]

lemma hasDuplicate_none_eq_true (cs : List Contact) (n cat : String) :
    hasDuplicate cs (some n) (some cat) none = true ↔
      ∃ c ∈ cs, c.name = n ∧ c.category = cat := by
  simp [hasDuplicate, optEqStr, List.any_eq_true]

lemma hasDuplicate_some_eq_false (cs : List Contact) (n cat uid : String) :
    hasDuplicate cs (some n) (some cat) (some uid) = false ↔
      ∀ c ∈ cs, c.name = n → c.category = cat → c.id = uid := by
  simp [hasDuplicate, optEqStr, List.any_eq_false]

lemma hasDuplicate_some_eq_true (cs : List Contact) (n cat uid : String) :
    hasDuplicate cs (some n) (some cat) (some uid) = true ↔
      ∃ c ∈ cs, c.name = n ∧ c.category = cat ∧ c.id ≠ uid := by
  simp [hasDuplicate, optEqStr, List.any_eq_true, and_assoc]

lemma NameCatUnique_getElem {cs : List Contact} (h : NameCatUnique cs)
    {j k : Nat} (hj : j < cs.length) (hk : k < cs.length) (hjk : j ≠ k) :
    ¬(cs[j].name = cs[k].name ∧ cs[j].category = cs[k].category) := by
  rw [NameCatUnique, List.pairwise_iff_getElem] at h
  rcases Nat.lt_or_ge j k with hlt | hge
  · exact h j k hj hk hlt
  · have hkj : k < j := by omega
    exact fun hp => h k j hk hj hkj ⟨hp.1.symm, hp.2.symm⟩

lemma IdsDistinct_getElem {cs : List Contact} (h : IdsDistinct cs)
    {j k : Nat} (hj : j < cs.length) (hk : k < cs.length) (hjk : j ≠ k) :
    cs[j].id ≠ cs[k].id := by
  rw [IdsDistinct, List.pairwise_iff_getElem] at h
  rcases Nat.lt_or_ge j k with hlt | hge
  · exact h j k hj hk hlt
  · have hkj : k < j := by omega
    exact (h k j hk hj hkj).symm

/-- Conclusion of the amended claim C2, as a predicate over the inputs. -/
def C2Conclusion (cs : List Contact) (d : ContactData) (data : UpdateData)
    (uid freshId : String) (now : Nat) (saveOk : Bool) (n cat : String) : Prop :=
  ((addContact freshId now true cs d).1.isSuccess = true →
      NameCatUnique (addContact freshId now true cs d).2) ∧
  ((∃ c ∈ cs, c.name = d.name ∧ c.category = d.category) →
      (addContact freshId now saveOk cs d).1 =
        .failure ("已存在同名同类别的联系人: " ++ d.name)) ∧
  ((∀ c ∈ cs, ¬(c.name = d.name ∧ c.category = d.category)) →
      (addContact freshId now true cs d).1.isSuccess = true) ∧
  ((∃ c ∈ cs, c.id ≠ uid ∧ c.name = n ∧ c.category = cat) →
      (updateContact freshId now saveOk cs uid data).1.isSuccess = false) ∧
  ((updateContact freshId now true cs uid data).1.isSuccess = true →
      NameCatUnique (updateContact freshId now true cs uid data).2)

/-- Claim C2 (amended): for a collection satisfying the compound
name-category uniqueness invariant, a successful addContact preserves the
invariant; addContact fails with the duplicate error when some existing
contact has the same name and category as the request and succeeds
(persistence succeeding) when no such collision exists, in particular when
the name matches but the category differs; updateContact performs the same
check excluding the record with the updated id; and a successful
updateContact preserves the invariant provided the contact ids are
pairwise distinct and the update data supplies both a name and a
category. -/
theorem C2_amended (cs : List Contact) (d : ContactData) (data : UpdateData)
    (uid freshId : String) (now : Nat) (saveOk : Bool) (n cat : String)
    (hinv : NameCatUnique cs) (hids : IdsDistinct cs)
    (hn : data.name = some n) (hc : data.category = some cat) :
    C2Conclusion cs d data uid freshId now saveOk n cat := by
  refine ⟨?_, ?_, ?_, ?_, ?_⟩
  · intro hsucc
    unfold addContact at hsucc ⊢
    cases hdup : hasDuplicate cs (some d.name) (some d.category) none
    · simp only [hdup, Bool.false_eq_true, if_false, if_true]
      rw [NameCatUnique, List.pairwise_append]
      refine ⟨hinv, List.pairwise_singleton _ _, ?_⟩
      intro a ha b hb
      simp only [List.mem_singleton] at hb
      subst hb
      have := (hasDuplicate_none_eq_false cs d.name d.category).mp hdup a ha
      simpa [Contact.create] using this
    · simp [hdup, OpResult.isSuccess] at hsucc
  · rintro ⟨c, hcmem, hname, hcat⟩
    have hdt : hasDuplicate cs (some d.name) (some d.category) none = true :=
      (hasDuplicate_none_eq_true cs d.name d.category).mpr ⟨c, hcmem, hname, hcat⟩
    unfold addContact
    simp [hdt]
  · intro hno
    have hdf : hasDuplicate cs (some d.name) (some d.category) none = false :=
      (hasDuplicate_none_eq_false cs d.name d.category).mpr hno
    unfold addContact
    simp [hdf, OpResult.isSuccess]
  · rintro ⟨c, hcmem, hne, hname, hcat⟩
    unfold updateContact
    cases hf : jsFindIndex (fun c => c.id == uid) cs with
    | none => simp [OpResult.isSuccess]
    | some i =>
      have hdt : hasDuplicate cs data.name data.category (some uid) = true := by
        rw [hn, hc]
        exact (hasDuplicate_some_eq_true cs n cat uid).mpr ⟨c, hcmem, hname, hcat, hne⟩
      simp [hdt, OpResult.isSuccess]
  · intro hsucc
    obtain ⟨i, orig, hf, hg, hd, _, hres⟩ :=
      updateContact_success_inv freshId now true cs uid data hsucc
    rw [hres]
    obtain ⟨hi, hgi⟩ := List.getElem?_eq_some.mp hg
    obtain ⟨a, ha, hpa⟩ := jsFindIndex_some _ cs i hf
    rw [hg] at ha
    have haorig : orig = a := Option.some.inj ha
    subst haorig
    have hid_orig : orig.id = uid := by simpa using hpa
    rw [hn, hc] at hd
    have hdf := (hasDuplicate_some_eq_false cs n cat uid).mp hd
    rw [NameCatUnique, List.pairwise_iff_getElem]
    intro j k hj hk hjk
    simp only [List.length_set] at hj hk
    simp only [List.getElem_set]
    by_cases hij : i = j
    · subst hij
      rw [if_pos rfl, if_neg (by omega)]
      rintro ⟨hname, hcat⟩
      simp only [mergeUpdate, hn, hc, Option.getD_some] at hname hcat
      have hkid : cs[k].id = uid :=
        hdf cs[k] (List.getElem_mem hk) hname.symm hcat.symm
      have hne : cs[i].id ≠ cs[k].id :=
        IdsDistinct_getElem hids hi hk (by omega)
      rw [hgi, hid_orig] at hne
      exact hne hkid.symm
    · rw [if_neg hij]
      by_cases hik : i = k
      · subst hik
        rw [if_pos rfl]
        rintro ⟨hname, hcat⟩
        simp only [mergeUpdate, hn, hc, Option.getD_some] at hname hcat
        have hjid : cs[j].id = uid :=
          hdf cs[j] (List.getElem_mem hj) hname hcat
        have hne : cs[j].id ≠ cs[i].id :=
          IdsDistinct_getElem hids hj hi (by omega)
        rw [hgi, hid_orig] at hne
        exact hne hjid
      · rw [if_neg hik]
        exact NameCatUnique_getElem hinv hj hk (by omega)

/-- Conclusion of claim C10, as a predicate over the inputs: the frame
property of a successful update. -/
def C10Conclusion (freshId : String) (now : Nat) (saveOk : Bool)
    (cs : List Contact) (uid : String) (data : UpdateData) : Prop :=
  ∃ i orig,
    jsFindIndex (fun c => c.id == uid) cs = some i ∧
    cs[i]? = some orig ∧
    (updateContact freshId now saveOk cs uid data).2.length = cs.length ∧
    (updateContact freshId now saveOk cs uid data).2[i]? =
      some { id := orig.id,
             name := data.name.getD orig.name,
             phone := data.phone.getD orig.phone,
             address := data.address.getD orig.address,
             category := data.category.getD orig.category,
             createdAt := orig.createdAt } ∧
    ∀ j, j ≠ i → (updateContact freshId now saveOk cs uid data).2[j]? = cs[j]?

/-- Claim C10: a successful updateContact on data without an id field (the
UpdateData type has none) keeps the record's original id and creation
time, leaves the collection's length and every other record unchanged,
and changes on the targeted record exactly the fields supplied by the
data, the others keeping their original values. Contact ids are assumed
nonempty, which holds of every id the constructor generates. -/
theorem C10_update_frame (freshId : String) (now : Nat) (saveOk : Bool)
    (cs : List Contact) (uid : String) (data : UpdateData)
    (hids : ∀ c ∈ cs, c.id ≠ "")
    (hsucc : (updateContact freshId now saveOk cs uid data).1.isSuccess = true) :
    C10Conclusion freshId now saveOk cs uid data := by
  obtain ⟨i, orig, hf, hg, hd, hsave, hres⟩ :=
    updateContact_success_inv freshId now saveOk cs uid data hsucc
  obtain ⟨hi, hgi⟩ := List.getElem?_eq_some.mp hg
  refine ⟨i, orig, hf, hg, ?_, ?_, ?_⟩
  · rw [hres, List.length_set]
  · rw [hres, List.getElem?_set_self (by simpa using hi)]
    have hne : orig.id ≠ "" := hids orig (List.getElem?_mem hg)
    have hbe : (orig.id == "") = false := by
      simpa using hne
    simp [mergeUpdate, hbe]
  · intro j hj
    rw [hres, List.getElem?_set_ne (fun h => hj h.symm)]

/-- Collection used by the counterexample to claim C2: distinct ids and
distinct name-category pairs. -/
def C2cexCs : List Contact :=
  [{ id := "1", name := "A", phone := "p", address := "ad", category := "x",
     createdAt := 0 },
   { id := "2", name := "A", phone := "p", address := "ad", category := "y",
     createdAt := 0 }]

/-- Update data supplying only a category, no name: the duplicate check
then compares every name against the undefined value and finds nothing. -/
def C2cexData : UpdateData :=
  { name := none, phone := none, address := none, category := some "x" }

/-- Claim C2, as stated, is false on the code: on a collection with
distinct ids satisfying the uniqueness invariant, updateContact applied to
update data that supplies a category but no name succeeds (the duplicate
check compares every stored name with the undefined value, which is never
equal) and yields a collection in which two contacts share both name and
category. -/
theorem C2_counterexample :
    NameCatUnique C2cexCs ∧ IdsDistinct C2cexCs ∧
    (updateContact "f" 0 true C2cexCs "2" C2cexData).1.isSuccess = true ∧
    ¬ NameCatUnique (updateContact "f" 0 true C2cexCs "2" C2cexData).2 := by
  decide

def C2wCs : List Contact :=
  [{ id := "1", name := "A", phone := "p", address := "ad", category := "x",
     createdAt := 0 }]

def C2wD : ContactData :=
  { name := "A", phone := "p", address := "ad", category := "y" }

def C2wData : UpdateData :=
  { name := some "B", phone := none, address := none, category := some "x" }

theorem C2_amended_witness :
    C2Conclusion C2wCs C2wD C2wData "1" "f" 7 false "B" "x" :=
  C2_amended C2wCs C2wD C2wData "1" "f" 7 false "B" "x"
    (by decide) (by decide) rfl rfl

def C10wCs : List Contact :=
  [{ id := "1", name := "A", phone := "p", address := "ad", category := "x",
     createdAt := 0 },
   { id := "2", name := "B", phone := "q", address := "bd", category := "y",
     createdAt := 1 }]

def C10wData : UpdateData :=
  { name := some "C", phone := none, address := some "cd", category := none }

theorem C10_witness : C10Conclusion "f" 9 true C10wCs "2" C10wData :=
  C10_update_frame "f" 9 true C10wCs "2" C10wData (by decide) (by decide)

/-- UTF-16 code units of a character sequence: JavaScript string length,
character indexing and regexes work on code units, so characters beyond
the basic multilingual plane contribute a surrogate pair. -/
def utf16CodeUnits : List Char → List Nat
  | [] => []
  | c :: rest =>
    (if c.toNat < 65536 then [c.toNat]
     else [55296 + (c.toNat - 65536) / 1024, 56320 + (c.toNat - 65536) % 1024]) ++
      utf16CodeUnits rest

/-- JavaScript string length: the number of UTF-16 code units. -/
def utf16Len (s : String) : Nat := (utf16CodeUnits s.data).length

/-- Test of the regular expression matching exactly eleven digits led by
the digit one, used by AddContactModal.validateForm for mobile numbers. -/
def jsMobile11 (s : String) : Bool :=
  match s.data with
  | c :: rest => c == '1' && rest.all Char.isDigit && rest.length == 10
  | [] => false

/-- Test of the regular expression matching a string made of at least
seven digits and nothing else (an astral character is never a digit, in
the model as a character, in the engine as either surrogate). -/
def jsAtLeast7Digits (s : String) : Bool :=
  s.data.all Char.isDigit && decide (7 ≤ s.data.length)

/-- AddContactModal.validateForm: required fields non-empty (the empty
string is the only falsy trimmed field value), an eleven-unit phone must
match the mobile pattern, and the phone must be at least seven digits. -/
def validateForm (d : ContactData) : Bool :=
  if d.name == "" || d.phone == "" || d.address == "" then false
  else if utf16Len d.phone == 11 && !(jsMobile11 d.phone) then false
  else if !(jsAtLeast7Digits d.phone) then false
  else true

/-- The number of digit characters a string contains. -/
def digitCount (s : String) : Nat := (s.data.filter Char.isDigit).length

/-- Claim C3, as stated, is false on the code: the repository operation
addContact performs no field validation, so adding a contact whose name
and address are empty (with no duplicate and persistence succeeding)
returns success and inserts the record. -/
theorem C3_counterexample :
    (addContact "id1" 0 true []
      { name := "", phone := "123", address := "", category := "office" }).1.isSuccess
        = true ∧
    (addContact "id1" 0 true []
      { name := "", phone := "123", address := "", category := "office" }).2 =
      [{ id := "id1", name := "", phone := "123", address := "",
         category := "office", createdAt := 0 }] := by
  decide

/-- Claim C3 (amended): the validation lives in the UI layer, not in the
repository: AddContactModal.validateForm rejects every input whose name,
phone or address is empty or whose phone contains fewer than seven
digits, so such input is never submitted to addContact; addContact itself
inserts such input unchecked. -/
theorem C3_amended (d : ContactData)
    (h : d.name = "" ∨ d.phone = "" ∨ d.address = "" ∨ digitCount d.phone < 7) :
    validateForm d = false := by
  unfold validateForm
  by_cases h1 : (d.name == "" || d.phone == "" || d.address == "") = true
  · simp [h1]
  · rcases h with h | h | h | h
    · simp [h] at h1
    · simp [h] at h1
    · simp [h] at h1
    · simp only [h1, Bool.false_eq_true, if_false]
      by_cases h2 : (utf16Len d.phone == 11 && !(jsMobile11 d.phone)) = true
      · simp [h2]
      · simp only [eq_false_of_ne_true h2, Bool.false_eq_true, if_false]
        suffices hh : jsAtLeast7Digits d.phone = false by simp [hh]
        unfold jsAtLeast7Digits
        cases hall : d.phone.data.all Char.isDigit
        · simp
        · have hfl : d.phone.data.filter Char.isDigit = d.phone.data :=
            List.filter_eq_self.mpr (by simpa [List.all_eq_true] using hall)
          unfold digitCount at h
          rw [hfl] at h
          simp only [Bool.true_and]
          simpa using Nat.not_le.mpr h

theorem C3_amended_witness :
    validateForm { name := "", phone := "123", address := "x", category := "c" }
      = false :=
  C3_amended { name := "", phone := "123", address := "x", category := "c" }
    (Or.inl rfl)

/-- A parsed JSON value, discriminated the way loadFromStorage needs it:
an array of items, some other truthy value, or a falsy value (null, false,
zero or the empty string). -/
inductive JsonVal where
  | arr (items : List RawItem)
  | truthy
  | falsy
deriving Repr, DecidableEq

/-- The external browser collaborators used by Crypto.js, as explicit
functions: base64 via btoa and String.fromCharCode (b64encode) and atob
(b64decode, none when atob throws on malformed input), the Web Crypto
AES-GCM primitives for a given key and nonce (aesDecrypt is none when
authentication fails), TextEncoder and TextDecoder (the decoder is
constructed without the fatal option, so it is total), and the JSON
builtins (jsonParse is none when JSON.parse throws). -/
structure JsPrims where
  b64encode : List Nat → String
  b64decode : String → Option (List Nat)
  aesEncrypt : Nat → List Nat → List Nat → List Nat
  aesDecrypt : Nat → List Nat → List Nat → Option (List Nat)
  strEncode : String → List Nat
  strDecode : List Nat → String
  jsonParse : String → Option JsonVal
  serializeItems : List RawItem → String

/-- Crypto.encrypt: with no key available the input is returned unchanged;
otherwise the twelve-byte nonce (drawn fresh by generateIV and passed here
as a parameter) is prepended to the ciphertext of the encoded data and the
whole envelope is base64-encoded. -/
def cryptoEncrypt (p : JsPrims) (key : Option Nat) (iv : List Nat)
    (data : String) : String :=
  match key with
  | none => data
  | some k => p.b64encode (iv ++ p.aesEncrypt k iv (p.strEncode data))

/-- Crypto.decrypt: with no key available the input is returned unchanged;
otherwise base64-decode, split off the twelve-byte nonce prefix, and
attempt authenticated decryption; any failure along the way is caught and
the original encoded input is returned unchanged. The function is total:
no failure propagates as an exception. -/
def cryptoDecrypt (p : JsPrims) (key : Option Nat)
    (encryptedData : String) : String :=
  match key with
  | none => encryptedData
  | some k =>
    match p.b64decode encryptedData with
    | none => encryptedData
    | some combined =>
      match p.aesDecrypt k (combined.take 12) (combined.drop 12) with
      | none => encryptedData
      | some decrypted => p.strDecode decrypted

/-- Crypto.readAndDecrypt: a missing or empty stored value is no data;
otherwise decrypt and parse, any parse failure being caught and converted
to no data. -/
def readAndDecrypt (p : JsPrims) (key : Option Nat)
    (stored : Option String) : Option JsonVal :=
  match stored with
  | none => none
  | some s => if s == "" then none else p.jsonParse (cryptoDecrypt p key s)

/-- The string written to storage by a successful saveToStorage: the
serialized collection, encrypted (Crypto.encryptAndStore). -/
def saveToStorageStr (p : JsPrims) (key : Option Nat) (iv : List Nat)
    (cs : List Contact) : String :=
  cryptoEncrypt p key iv (p.serializeItems (cs.map Contact.toJSON))

/-- ContactManager.loadFromStorage, applied to the parsed result of
readAndDecrypt: no data leaves the collection as it was (empty when called
from the constructor), a truthy non-array empties it, and an array is
filtered entry by entry and converted. The body is total: the catch branch
that empties the collection on an unexpected exception is unreachable. -/
def loadFromStorage (freshId : String) (now : Nat) (prior : List Contact)
    (data : Option JsonVal) : List Contact :=
  match data with
  | none => prior
  | some .falsy => prior
  | some .truthy => []
  | some (.arr items) =>
    (items.filter RawItem.isValid).map (Contact.ofItem freshId now)

/-- Decrypt inverts encrypt, given the contracts of the collaborators at
the envelope actually produced: base64 decoding inverts encoding, AES-GCM
decryption under the same key and nonce inverts encryption, and text
decoding inverts text encoding. -/
lemma cryptoDecrypt_encrypt (p : JsPrims) (k : Nat) (iv : List Nat) (s : String)
    (hlen : iv.length = 12)
    (h1 : p.b64decode (p.b64encode (iv ++ p.aesEncrypt k iv (p.strEncode s))) =
      some (iv ++ p.aesEncrypt k iv (p.strEncode s)))
    (h2 : p.aesDecrypt k iv (p.aesEncrypt k iv (p.strEncode s)) =
      some (p.strEncode s))
    (h3 : p.strDecode (p.strEncode s) = s) :
    cryptoDecrypt p (some k) (cryptoEncrypt p (some k) iv s) = s := by
  have htake : (iv ++ p.aesEncrypt k iv (p.strEncode s)).take 12 = iv := by
    rw [← hlen]
    exact List.take_left iv _
  have hdrop : (iv ++ p.aesEncrypt k iv (p.strEncode s)).drop 12 =
      p.aesEncrypt k iv (p.strEncode s) := by
    rw [← hlen]
    exact List.drop_left iv _
  simp only [cryptoEncrypt, cryptoDecrypt, h1, htake, hdrop, h2, h3]

/-- Claim C4: decrypt inverts encrypt on every string, both when a key is
available (AES-GCM with the nonce prefixed to the ciphertext, base64
encoded, under the stated contracts of the external primitives at the
envelope produced) and when the key is unavailable (both functions return
their input unchanged). -/
theorem C4_roundtrip (p : JsPrims) (k : Nat) (iv : List Nat) (s : String)
    (hlen : iv.length = 12)
    (h1 : p.b64decode (p.b64encode (iv ++ p.aesEncrypt k iv (p.strEncode s))) =
      some (iv ++ p.aesEncrypt k iv (p.strEncode s)))
    (h2 : p.aesDecrypt k iv (p.aesEncrypt k iv (p.strEncode s)) =
      some (p.strEncode s))
    (h3 : p.strDecode (p.strEncode s) = s) :
    cryptoDecrypt p (some k) (cryptoEncrypt p (some k) iv s) = s ∧
    cryptoDecrypt p none (cryptoEncrypt p none iv s) = s :=
  ⟨cryptoDecrypt_encrypt p k iv s hlen h1 h2 h3, rfl⟩

/-- Toy collaborator instance for the C4 witness, chosen so that every
contract hypothesis holds by computation at the concrete input. -/
def C4prims : JsPrims :=
  { b64encode := fun _ => "ENC",
    b64decode := fun _ => some ([0, 1, 2, 3, 4, 5, 6, 7, 8, 9, 10, 11] ++ [42]),
    aesEncrypt := fun _ _ pt => pt,
    aesDecrypt := fun _ _ ct => some ct,
    strEncode := fun _ => [42],
    strDecode := fun _ => "hello",
    jsonParse := fun _ => none,
    serializeItems := fun _ => "" }

theorem C4_witness :
    cryptoDecrypt C4prims (some 0)
      (cryptoEncrypt C4prims (some 0) [0, 1, 2, 3, 4, 5, 6, 7, 8, 9, 10, 11] "hello")
        = "hello" ∧
    cryptoDecrypt C4prims none
      (cryptoEncrypt C4prims none [0, 1, 2, 3, 4, 5, 6, 7, 8, 9, 10, 11] "hello")
        = "hello" :=
  C4_roundtrip C4prims 0 [0, 1, 2, 3, 4, 5, 6, 7, 8, 9, 10, 11] "hello"
    (by decide) (by decide) (by decide) (by decide)

/-- Claim C6: decrypt is fail-soft. It is a total function (the model has
no exception channel, matching the catch-all in the source), and whenever
the pipeline fails, because base64 decoding rejects the input or because
authenticated decryption rejects the envelope (corrupt data, wrong key,
truncated input, tag mismatch), the original encoded input is returned
unchanged; with no key available the input is likewise returned
unchanged. -/
theorem C6_decrypt_failsoft (p : JsPrims) (k : Nat) (enc : String)
    (h : p.b64decode enc = none ∨
      ∀ combined, p.b64decode enc = some combined →
        p.aesDecrypt k (combined.take 12) (combined.drop 12) = none) :
    cryptoDecrypt p (some k) enc = enc ∧ cryptoDecrypt p none enc = enc := by
  refine ⟨?_, rfl⟩
  unfold cryptoDecrypt
  cases hb : p.b64decode enc with
  | none => rfl
  | some combined =>
    rcases h with h | h
    · rw [hb] at h
      exact absurd h (by simp)
    · simp [h combined hb]

/-- Toy collaborator instance for the C6 witness: base64 decoding rejects
every input, as atob does on a corrupt store. -/
def C6prims : JsPrims :=
  { b64encode := fun _ => "",
    b64decode := fun _ => none,
    aesEncrypt := fun _ _ pt => pt,
    aesDecrypt := fun _ _ _ => none,
    strEncode := fun _ => [],
    strDecode := fun _ => "",
    jsonParse := fun _ => none,
    serializeItems := fun _ => "" }

theorem C6_witness :
    cryptoDecrypt C6prims (some 0) "corrupt!!" = "corrupt!!" ∧
    cryptoDecrypt C6prims none "corrupt!!" = "corrupt!!" :=
  C6_decrypt_failsoft C6prims 0 "corrupt!!" (Or.inl rfl)

/-- Claim C8: with a key available, encrypting the same plaintext under
the two distinct nonces that successive generateIV calls draw produces two
distinct output strings (base64 encoding being injective at the two
envelopes, whose twelve-byte nonce prefixes differ), and decrypt maps each
of the two outputs back to the original plaintext. -/
theorem C8_fresh_nonce_distinct (p : JsPrims) (k : Nat) (iv1 iv2 : List Nat)
    (s : String)
    (hlen1 : iv1.length = 12) (hlen2 : iv2.length = 12) (hne : iv1 ≠ iv2)
    (hinj : p.b64encode (iv1 ++ p.aesEncrypt k iv1 (p.strEncode s)) =
        p.b64encode (iv2 ++ p.aesEncrypt k iv2 (p.strEncode s)) →
      iv1 ++ p.aesEncrypt k iv1 (p.strEncode s) =
        iv2 ++ p.aesEncrypt k iv2 (p.strEncode s))
    (h1a : p.b64decode (p.b64encode (iv1 ++ p.aesEncrypt k iv1 (p.strEncode s))) =
      some (iv1 ++ p.aesEncrypt k iv1 (p.strEncode s)))
    (h2a : p.aesDecrypt k iv1 (p.aesEncrypt k iv1 (p.strEncode s)) =
      some (p.strEncode s))
    (h1b : p.b64decode (p.b64encode (iv2 ++ p.aesEncrypt k iv2 (p.strEncode s))) =
      some (iv2 ++ p.aesEncrypt k iv2 (p.strEncode s)))
    (h2b : p.aesDecrypt k iv2 (p.aesEncrypt k iv2 (p.strEncode s)) =
      some (p.strEncode s))
    (h3 : p.strDecode (p.strEncode s) = s) :
    cryptoEncrypt p (some k) iv1 s ≠ cryptoEncrypt p (some k) iv2 s ∧
    cryptoDecrypt p (some k) (cryptoEncrypt p (some k) iv1 s) = s ∧
    cryptoDecrypt p (some k) (cryptoEncrypt p (some k) iv2 s) = s := by
  refine ⟨?_, cryptoDecrypt_encrypt p k iv1 s hlen1 h1a h2a h3,
    cryptoDecrypt_encrypt p k iv2 s hlen2 h1b h2b h3⟩
  intro heq
  have happ := hinj heq
  have hiv := List.append_inj_left happ (by rw [hlen1, hlen2])
  exact hne hiv

def C8iv1 : List Nat := [1, 0, 0, 0, 0, 0, 0, 0, 0, 0, 0, 0]

def C8iv2 : List Nat := [2, 0, 0, 0, 0, 0, 0, 0, 0, 0, 0, 0]

/-- Toy collaborator instance for the C8 witness: encryption is the
identity on bytes, text encoding is empty, and base64 encoding maps an
envelope to the decimal form of its first byte, so the two envelopes get
the two distinct names 1 and 2 which base64 decoding maps back. -/
def C8prims : JsPrims :=
  { b64encode := fun l => toString (l.headD 0),
    b64decode := fun t => if t == "1" then some C8iv1 else some C8iv2,
    aesEncrypt := fun _ _ pt => pt,
    aesDecrypt := fun _ _ ct => some ct,
    strEncode := fun _ => [],
    strDecode := fun _ => "hi",
    jsonParse := fun _ => none,
    serializeItems := fun _ => "" }

theorem C8_witness :
    cryptoEncrypt C8prims (some 0) C8iv1 "hi" ≠
      cryptoEncrypt C8prims (some 0) C8iv2 "hi" ∧
    cryptoDecrypt C8prims (some 0) (cryptoEncrypt C8prims (some 0) C8iv1 "hi")
      = "hi" ∧
    cryptoDecrypt C8prims (some 0) (cryptoEncrypt C8prims (some 0) C8iv2 "hi")
      = "hi" :=
  C8_fresh_nonce_distinct C8prims 0 C8iv1 C8iv2 "hi" (by decide) (by decide)
    (by decide) (fun h => absurd h (by decide)) (by decide) (by decide)
    (by decide) (by decide) (by decide)

/-- Claim C7: when the stored ciphertext is truncated or altered so that
the decrypt-then-parse pipeline no longer yields an array of records,
loadFromStorage as invoked by the constructor (on the empty prior
collection) terminates with the empty collection; the model is total, so
no exception propagates to the caller. -/
theorem C7_corrupt_load_empty (p : JsPrims) (key : Option Nat) (s : String)
    (freshId : String) (now : Nat)
    (h : ∀ items, p.jsonParse (cryptoDecrypt p key s) ≠ some (.arr items)) :
    loadFromStorage freshId now [] (readAndDecrypt p key (some s)) = [] := by
  unfold readAndDecrypt
  by_cases hs : (s == "") = true
  · simp [hs, loadFromStorage]
  · simp only [hs, Bool.false_eq_true, if_false]
    cases hp : p.jsonParse (cryptoDecrypt p key s) with
    | none => simp [loadFromStorage]
    | some v =>
      cases v with
      | arr items => exact absurd hp (h items)
      | truthy => simp [loadFromStorage]
      | falsy => simp [loadFromStorage]

/-- Toy collaborator instance for the C7 witness: parsing always throws,
as JSON.parse does on the text a corrupted envelope decrypts to. -/
def C7prims : JsPrims :=
  { b64encode := fun _ => "",
    b64decode := fun _ => none,
    aesEncrypt := fun _ _ pt => pt,
    aesDecrypt := fun _ _ _ => none,
    strEncode := fun _ => [],
    strDecode := fun _ => "",
    jsonParse := fun _ => none,
    serializeItems := fun _ => "" }

theorem C7_witness :
    loadFromStorage "g" 9 [] (readAndDecrypt C7prims (some 0) (some "garbage"))
      = [] :=
  C7_corrupt_load_empty C7prims (some 0) "garbage" "g" 9
    (fun _ hp => Option.noConfusion hp)

/-- The storage content after a successful addContact: the collection
after the add, serialized and encrypted by saveToStorage. -/
def addThenStored (p : JsPrims) (key : Option Nat) (iv : List Nat)
    (freshId : String) (now : Nat) (cs : List Contact) (d : ContactData) :
    String :=
  saveToStorageStr p key iv (addContact freshId now true cs d).2

/-- A reload after a successful addContact: loadFromStorage run by a fresh
ContactManager (empty prior collection) on the stored string. -/
def addThenReload (p : JsPrims) (key : Option Nat) (iv : List Nat)
    (freshId : String) (now : Nat) (cs : List Contact) (d : ContactData)
    (freshId2 : String) (now2 : Nat) : List Contact :=
  loadFromStorage freshId2 now2 []
    (readAndDecrypt p key (some (addThenStored p key iv freshId now cs d)))

/-- Claim C5: for every contact input on which addContact succeeds (with
persistence succeeding), reloading from storage yields a collection one
longer than before whose last record carries the name, phone, address and
category of the added contact and the id assigned at creation. Hypotheses:
the generated id is nonempty (as every id the constructor generates is),
the add passes the duplicate check, the stored envelope is a nonempty
string, decrypt inverts encrypt at it (claim C4's property), and parsing
inverts serialization at the stored collection. -/
theorem C5_add_then_load (p : JsPrims) (key : Option Nat) (iv : List Nat)
    (freshId : String) (now : Nat) (cs : List Contact) (d : ContactData)
    (freshId2 : String) (now2 : Nat)
    (hfresh : freshId ≠ "")
    (hdup : hasDuplicate cs (some d.name) (some d.category) none = false)
    (hne : addThenStored p key iv freshId now cs d ≠ "")
    (hdec : cryptoDecrypt p key (addThenStored p key iv freshId now cs d) =
      p.serializeItems ((addContact freshId now true cs d).2.map Contact.toJSON))
    (hparse : p.jsonParse
        (p.serializeItems ((addContact freshId now true cs d).2.map Contact.toJSON)) =
      some (.arr ((addContact freshId now true cs d).2.map Contact.toJSON))) :
    (addContact freshId now true cs d).1.isSuccess = true ∧
    (addThenReload p key iv freshId now cs d freshId2 now2).length =
      cs.length + 1 ∧
    (addThenReload p key iv freshId now cs d freshId2 now2).getLast? =
      some { id := freshId, name := d.name, phone := d.phone,
             address := d.address, category := d.category, createdAt := now } := by
  have hres : (addContact freshId now true cs d).2 =
      cs ++ [Contact.create freshId now d] := by
    unfold addContact
    simp [hdup]
  have hsucc : (addContact freshId now true cs d).1.isSuccess = true := by
    unfold addContact
    simp [hdup, OpResult.isSuccess]
  have hbe : (addThenStored p key iv freshId now cs d == "") = false := by
    simpa using hne
  have hload : addThenReload p key iv freshId now cs d freshId2 now2 =
      ((addContact freshId now true cs d).2.map Contact.toJSON).map
        (Contact.ofItem freshId2 now2) := by
    unfold addThenReload readAndDecrypt
    simp only [hbe, Bool.false_eq_true, if_false, hdec, hparse, loadFromStorage]
    have hfil : ((addContact freshId now true cs d).2.map Contact.toJSON).filter
        RawItem.isValid = (addContact freshId now true cs d).2.map Contact.toJSON := by
      apply List.filter_eq_self.mpr
      intro it hit
      obtain ⟨c, _, hc⟩ := List.mem_map.mp hit
      subst hc
      simp [Contact.toJSON, RawItem.isValid]
    rw [hfil]
  refine ⟨hsucc, ?_, ?_⟩
  · rw [hload, hres]
    simp
  · rw [hload, hres, List.map_append, List.map_append]
    simp only [List.map_cons, List.map_nil]
    rw [List.getLast?_concat]
    have hidne : (freshId == "") = false := by simpa using hfresh
    simp [Contact.create, Contact.toJSON, Contact.ofItem, hidne]

/-- Toy collaborator instance for the C5 witness: no key (plaintext
fallback), a constant nonempty serialization, and a parser returning
exactly the serialized singleton collection. -/
def C5prims : JsPrims :=
  { b64encode := fun _ => "",
    b64decode := fun _ => none,
    aesEncrypt := fun _ _ pt => pt,
    aesDecrypt := fun _ _ _ => none,
    strEncode := fun _ => [],
    strDecode := fun _ => "",
    jsonParse := fun _ => some (.arr
      [{ id := some "id1", name := some "Ann", phone := some "1234567",
         address := some "HQ", category := some "office",
         createdAt := some 3 }]),
    serializeItems := fun _ => "S" }

def C5d : ContactData :=
  { name := "Ann", phone := "1234567", address := "HQ", category := "office" }

theorem C5_witness :
    (addContact "id1" 3 true [] C5d).1.isSuccess = true ∧
    (addThenReload C5prims none [] "id1" 3 [] C5d "g" 9).length =
      List.length ([] : List Contact) + 1 ∧
    (addThenReload C5prims none [] "id1" 3 [] C5d "g" 9).getLast? =
      some { id := "id1", name := "Ann", phone := "1234567",
             address := "HQ", category := "office", createdAt := 3 } :=
  C5_add_then_load C5prims none [] "id1" 3 [] C5d "g" 9
    (by decide) (by decide) (by decide) (by decide) (by decide)
/-- The static phonetic range table of ContactManager.getPinyinFirstLetter:
each entry maps the inclusive code-unit range of its two numbers to the
pinyin syllable whose first letter is returned; entries are consulted in
this order and the first containing range wins. -/
def pinyinMap : List (String × Nat × Nat) := [
  ("a", 19968, 20320),
  ("ai", 20321, 20543),
  ("an", 20544, 20807),
  ("ang", 20808, 20982),
  ("ao", 20983, 21199),
  ("ba", 21200, 21474),
  ("bai", 21475, 21605),
  ("ban", 21606, 21884),
  ("bang", 21885, 22031),
  ("bao", 22032, 22302),
  ("bei", 22303, 22530),
  ("ben", 22531, 22621),
  ("beng", 22622, 22786),
  ("bi", 22787, 23009),
  ("bian", 23010, 23242),
  ("biao", 23243, 23384),
  ("bie", 23385, 23532),
  ("bin", 23533, 23751),
  ("bing", 23752, 23942),
  ("bo", 23943, 24190),
  ("bu", 24191, 24382),
  ("ca", 24383, 24507),
  ("cai", 24508, 24688),
  ("can", 24689, 24893),
  ("cang", 24894, 25049),
  ("cao", 25050, 25209),
  ("ce", 25210, 25340),
  ("ceng", 25341, 25462),
  ("cha", 25463, 25667),
  ("chai", 25668, 25770),
  ("chan", 25771, 26039),
  ("chang", 26040, 26255),
  ("chao", 26256, 26410),
  ("che", 26411, 26552),
  ("chen", 26553, 26782),
  ("cheng", 26783, 27038),
  ("chi", 27039, 27295),
  ("chong", 27296, 27485),
  ("chou", 27486, 27730),
  ("chu", 27731, 28049),
  ("chuai", 28050, 28150),
  ("chuan", 28151, 28303),
  ("chuang", 28304, 28473),
  ("chui", 28474, 28603),
  ("chun", 28604, 28779),
  ("chuo", 28780, 28903),
  ("ci", 28904, 29134),
  ("cong", 29135, 29386),
  ("cou", 29387, 29505),
  ("cu", 29506, 29634),
  ("cuan", 29635, 29760),
  ("cui", 29761, 29901),
  ("cun", 29902, 30035),
  ("cuo", 30036, 30253),
  ("da", 30254, 30485),
  ("dai", 30486, 30638),
  ("dan", 30639, 30872),
  ("dang", 30873, 31071),
  ("dao", 31072, 31293),
  ("de", 31294, 31400),
  ("deng", 31401, 31584),
  ("di", 31585, 31892),
  ("dian", 31893, 32188),
  ("diao", 32189, 32323),
  ("die", 32324, 32538),
  ("ding", 32539, 32780),
  ("diu", 32781, 32799),
  ("dong", 32800, 33054),
  ("dou", 33055, 33270),
  ("du", 33271, 33626),
  ("duan", 33627, 33845),
  ("dui", 33846, 34020),
  ("dun", 34021, 34243),
  ("duo", 34244, 34445),
  ("e", 34446, 34708),
  ("en", 34709, 34899),
  ("er", 34900, 35055),
  ("fa", 35056, 35279),
  ("fan", 35280, 35529),
  ("fang", 35530, 35781),
  ("fei", 35782, 36044),
  ("fen", 36045, 36310),
  ("feng", 36311, 36592),
  ("fo", 36593, 36741),
  ("fou", 36742, 36757),
  ("fu", 36758, 37119),
  ("ga", 37120, 37323),
  ("gai", 37324, 37517),
  ("gan", 37518, 37730),
  ("gang", 37731, 37892),
  ("gao", 37893, 38150),
  ("ge", 38151, 38428),
  ("gei", 38429, 38508),
  ("gen", 38509, 38663),
  ("geng", 38664, 38890),
  ("gong", 38891, 39139),
  ("gou", 39140, 39318),
  ("gu", 39319, 39750),
  ("gua", 39751, 39927),
  ("guai", 39928, 40039),
  ("guan", 40040, 40230),
  ("guang", 40231, 40390),
  ("gui", 40391, 40607),
  ("gun", 40608, 40715),
  ("guo", 40716, 40889),
  ("ha", 40890, 41030),
  ("hai", 41031, 41196),
  ("han", 41197, 41417),
  ("hang", 41418, 41583),
  ("hao", 41584, 41775),
  ("he", 41776, 42010),
  ("hei", 42011, 42089),
  ("hen", 42090, 42230),
  ("heng", 42231, 42419),
  ("hong", 42420, 42595),
  ("hou", 42596, 42789),
  ("hu", 42790, 43311),
  ("hua", 43312, 43479),
  ("huai", 43480, 43617),
  ("huan", 43618, 43820),
  ("huang", 43821, 44030),
  ("hui", 44031, 44289),
  ("hun", 44290, 44470),
  ("huo", 44471, 44670),
  ("ji", 44671, 45252),
  ("jia", 45253, 45589),
  ("jian", 45590, 46083),
  ("jiang", 46084, 46390),
  ("jiao", 46391, 46742),
  ("jie", 46743, 47093),
  ("jin", 47094, 47517),
  ("jing", 47518, 47930),
  ("jiong", 47931, 48118),
  ("jiu", 48119, 48299),
  ("ju", 48300, 48694),
  ("juan", 48695, 48889),
  ("jue", 48890, 49250),
  ("jun", 49251, 49450),
  ("ka", 49451, 49625),
  ("kai", 49626, 49785),
  ("kan", 49786, 50010),
  ("kang", 50011, 50160),
  ("kao", 50161, 50242),
  ("ke", 50243, 50505),
  ("ken", 50506, 50630),
  ("keng", 50631, 50760),
  ("kong", 50761, 50890),
  ("kou", 50891, 51045),
  ("ku", 51046, 51307),
  ("kua", 51308, 51403),
  ("kuai", 51404, 51507),
  ("kuan", 51508, 51647),
  ("kuang", 51648, 51832),
  ("kui", 51833, 52019),
  ("kun", 52020, 52230),
  ("kuo", 52231, 52382),
  ("la", 52383, 52586),
  ("lai", 52587, 52720),
  ("lan", 52721, 53049),
  ("lang", 53050, 53219),
  ("lao", 53220, 53379),
  ("le", 53380, 53539),
  ("lei", 53540, 53749),
  ("leng", 53750, 53839),
  ("li", 53840, 54480),
  ("lia", 54481, 54540),
  ("lian", 54541, 54991),
  ("liang", 54992, 55289),
  ("liao", 55290, 55647),
  ("lie", 55648, 55908),
  ("lin", 55909, 56242),
  ("ling", 56243, 56589),
  ("liu", 56590, 56924),
  ("long", 56925, 57184),
  ("lou", 57185, 57334),
  ("lu", 57335, 57796),
  ("lv", 57797, 57980),
  ("luan", 57981, 58133),
  ("lue", 58134, 58240),
  ("lun", 58241, 58480),
  ("luo", 58481, 58908),
  ("ma", 58909, 59170),
  ("mai", 59171, 59306),
  ("man", 59307, 59600),
  ("mang", 59601, 59770),
  ("mao", 59771, 60105),
  ("me", 60106, 60200),
  ("mei", 60201, 60480),
  ("men", 60481, 60600),
  ("meng", 60601, 60810),
  ("mi", 60811, 61330),
  ("mian", 61331, 61580),
  ("miao", 61581, 61790),
  ("mie", 61791, 61930),
  ("min", 61931, 62122),
  ("ming", 62123, 62280),
  ("miu", 62281, 62299),
  ("mo", 62300, 62689),
  ("mou", 62690, 62830),
  ("mu", 62831, 63065),
  ("na", 63066, 63240),
  ("nai", 63241, 63370),
  ("nan", 63371, 63520),
  ("nang", 63521, 63640),
  ("nao", 63641, 63840),
  ("ne", 63841, 63920),
  ("nei", 63921, 64030),
  ("nen", 64031, 64080),
  ("neng", 64081, 64170),
  ("ni", 64171, 64689),
  ("nian", 64690, 64960),
  ("niang", 64961, 65040),
  ("niao", 65041, 65130),
  ("nie", 65131, 65380),
  ("nin", 65381, 65440),
  ("ning", 65441, 65580),
  ("niu", 65581, 65680),
  ("nong", 65681, 65790),
  ("nu", 65791, 65900),
  ("nv", 65901, 65940),
  ("nuan", 65941, 66010),
  ("nue", 66011, 66050),
  ("nuo", 66051, 66170),
  ("o", 66171, 66230),
  ("ou", 66231, 66430),
  ("pa", 66431, 66570),
  ("pai", 66571, 66740),
  ("pan", 66741, 67030),
  ("pang", 67031, 67180),
  ("pao", 67181, 67380),
  ("pei", 67381, 67540),
  ("pen", 67541, 67640),
  ("peng", 67641, 67910),
  ("pi", 67911, 68330),
  ("pian", 68331, 68520),
  ("piao", 68521, 68700),
  ("pie", 68701, 68800),
  ("pin", 68801, 69000),
  ("ping", 69001, 69260),
  ("po", 69261, 69540),
  ("pu", 69541, 69880),
  ("qi", 69881, 70449),
  ("qia", 70450, 70580),
  ("qian", 70581, 71099),
  ("qiang", 71100, 71309),
  ("qiao", 71310, 71519),
  ("qie", 71520, 71649),
  ("qin", 71650, 71939),
  ("qing", 71940, 72249),
  ("qiong", 72250, 72409),
  ("qiu", 72410, 72679),
  ("qu", 72680, 73149),
  ("quan", 73150, 73349),
  ("que", 73350, 73649),
  ("qun", 73650, 73849),
  ("ran", 73850, 74039),
  ("rang", 74040, 74199),
  ("rao", 74200, 74359),
  ("re", 74360, 74449),
  ("ren", 74450, 74739),
  ("reng", 74740, 74859),
  ("ri", 74860, 74929),
  ("rong", 74930, 75209),
  ("rou", 75210, 75349),
  ("ru", 75350, 75709),
  ("ruan", 75710, 75819),
  ("rui", 75820, 75939),
  ("run", 75940, 76039),
  ("ruo", 76040, 76209),
  ("sa", 76210, 76369),
  ("sai", 76370, 76509),
  ("san", 76510, 76729),
  ("sang", 76730, 76889),
  ("sao", 76890, 77049),
  ("se", 77050, 77189),
  ("sen", 77190, 77249),
  ("seng", 77250, 77329),
  ("sha", 77330, 77619),
  ("shai", 77620, 77729),
  ("shan", 77730, 78209),
  ("shang", 78210, 78549),
  ("shao", 78550, 78809),
  ("she", 78810, 79039),
  ("shen", 79040, 79499),
  ("sheng", 79500, 79819),
  ("shi", 79820, 80449),
  ("shou", 80450, 80709),
  ("shu", 80710, 81209),
  ("shua", 81210, 81289),
  ("shuai", 81290, 81389),
  ("shuan", 81390, 81489),
  ("shuang", 81490, 81609),
  ("shui", 81610, 81709),
  ("shun", 81710, 81899),
  ("shuo", 81900, 82019),
  ("si", 82020, 82529),
  ("song", 82530, 82889),
  ("sou", 82890, 83139),
  ("su", 83140, 83479),
  ("suan", 83480, 83589),
  ("sui", 83590, 83869),
  ("sun", 83870, 84049),
  ("suo", 84050, 84389),
  ("ta", 84390, 84649),
  ("tai", 84650, 84899),
  ("tan", 84900, 85319),
  ("tang", 85320, 85689),
  ("tao", 85690, 86009),
  ("te", 86010, 86099),
  ("teng", 86100, 86249),
  ("ti", 86250, 86789),
  ("tian", 86790, 87089),
  ("tiao", 87090, 87339),
  ("tie", 87340, 87489),
  ("ting", 87490, 87769),
  ("tong", 87770, 88049),
  ("tou", 88050, 88199),
  ("tu", 88200, 88549),
  ("tuan", 88550, 88659),
  ("tui", 88660, 88829),
  ("tun", 88830, 89049),
  ("tuo", 89050, 89359),
  ("wa", 89360, 89549),
  ("wai", 89550, 89649),
  ("wan", 89650, 90049),
  ("wang", 90050, 90309),
  ("wei", 90310, 90919),
  ("wen", 90920, 91249),
  ("weng", 91250, 91409),
  ("wo", 91410, 91629),
  ("wu", 91630, 92159),
  ("xi", 92160, 92789),
  ("xia", 92790, 93149),
  ("xian", 93150, 93719),
  ("xiang", 93720, 94159),
  ("xiao", 94160, 94669),
  ("xie", 94670, 95159),
  ("xin", 95160, 95489),
  ("xing", 95490, 95929),
  ("xiong", 95930, 96109),
  ("xiu", 96110, 96339),
  ("xu", 96340, 96899),
  ("xuan", 96900, 97229),
  ("xue", 97230, 97409),
  ("xun", 97410, 97809),
  ("ya", 97810, 98249),
  ("yan", 98250, 98929),
  ("yang", 98930, 99329),
  ("yao", 99330, 99849),
  ("ye", 99850, 100259),
  ("yi", 100260, 100979),
  ("yin", 100980, 101489),
  ("ying", 101490, 102049),
  ("yo", 102050, 102109),
  ("yong", 102110, 102489),
  ("you", 102490, 102999),
  ("yu", 103000, 103719),
  ("yuan", 103720, 104239),
  ("yue", 104240, 104489),
  ("yun", 104490, 105049),
  ("za", 105050, 105209),
  ("zai", 105210, 105349),
  ("zan", 105350, 105529),
  ("zang", 105530, 105649),
  ("zao", 105650, 105929),
  ("ze", 105930, 106149),
  ("zei", 106150, 106199),
  ("zen", 106200, 106289),
  ("zeng", 106290, 106489),
  ("zha", 106490, 106949),
  ("zhai", 106950, 107109),
  ("zhan", 107110, 107489),
  ("zhang", 107490, 107809),
  ("zhao", 107810, 108049),
  ("zhe", 108050, 108429),
  ("zhen", 108430, 108909),
  ("zheng", 108910, 109349),
  ("zhi", 109350, 110179),
  ("zhong", 110180, 110519),
  ("zhou", 110520, 110999),
  ("zhu", 111000, 111509),
  ("zhua", 111510, 111589),
  ("zhuai", 111590, 111649),
  ("zhuan", 111650, 111939),
  ("zhuang", 111940, 112139),
  ("zhui", 112140, 112349),
  ("zhun", 112350, 112509),
  ("zhuo", 112510, 112839),
  ("zi", 112840, 113319),
  ("zong", 113320, 113539),
  ("zou", 113540, 113729),
  ("zu", 113730, 114059),
  ("zuan", 114060, 114169),
  ("zui", 114170, 114259),
  ("zun", 114260, 114399),
  ("zuo", 114400, 114789),
  ("zz", 114790, 114879)
]

/-- ContactManager.getPinyinFirstLetter on one UTF-16 code unit (the
source receives a one-unit string and reads charCodeAt of position zero):
a Latin letter is returned lowercased, a digit is returned as is, any
other unit is looked up in the range table, the first letter of the first
matching entry being returned lowercased; unrecognized units give the
empty string. -/
def getPinyinFirstLetter (unit : Nat) : String :=
  if (65 ≤ unit && unit ≤ 90) || (97 ≤ unit && unit ≤ 122) then
    String.singleton (Char.ofNat (if unit ≤ 90 then unit + 32 else unit))
  else if 48 ≤ unit && unit ≤ 57 then
    String.singleton (Char.ofNat unit)
  else
    match pinyinMap.find? (fun e => decide (e.2.1 ≤ unit) && decide (unit ≤ e.2.2)) with
    | some e =>
      match e.1.data.head? with
      | some c => String.singleton c.toLower
      | none => ""
    | none => ""

/-- ContactManager.getPinyinInitials: the string is split into UTF-16
code units and the per-unit initials are concatenated. -/
def getPinyinInitials (s : String) : String :=
  String.join ((utf16CodeUnits s.data).map getPinyinFirstLetter)

/-- JavaScript toLowerCase, modelled by the per-character ASCII lowering
of the core library (identical on the Latin letters, digits and CJK
characters the repository handles). -/
def jsToLower (s : String) : String :=
  String.mk (s.data.map Char.toLower)

/-- Whether the first list is a prefix of the second, by character. -/
def startsB : List Char → List Char → Bool
  | [], _ => true
  | _ :: _, [] => false
  | a :: as, b :: bs => a == b && startsB as bs

/-- Whether the first list occurs as a contiguous run inside the second. -/
def inclB (needle : List Char) : List Char → Bool
  | [] => needle.isEmpty
  | h :: t => startsB needle (h :: t) || inclB needle t

/-- String.prototype.includes: hay contains sub as a substring. -/
def jsIncludes (hay sub : String) : Bool :=
  inclB sub.data hay.data

/-- The predicate of the filter callback in ContactManager.filterContacts:
category wildcard or exact match; an empty keyword filters by category
alone; otherwise the lowercased keyword must occur in the lowercased name,
address or category or in their pinyin initials, or the raw keyword must
occur in the phone. -/
def filterPred (category keyword : String) (c : Contact) : Bool :=
  let matchCategory := category == "all" || c.category == category
  if keyword == "" then matchCategory
  else
    let lowerKeyword := jsToLower keyword
    let nameInitials := getPinyinInitials c.name
    let addressInitials := getPinyinInitials c.address
    let categoryInitials := getPinyinInitials c.category
    let matchKeyword :=
      jsIncludes (jsToLower c.name) lowerKeyword ||
      jsIncludes nameInitials lowerKeyword ||
      jsIncludes c.phone keyword ||
      jsIncludes (jsToLower c.address) lowerKeyword ||
      jsIncludes addressInitials lowerKeyword ||
      jsIncludes (jsToLower c.category) lowerKeyword ||
      jsIncludes categoryInitials lowerKeyword
    matchCategory && matchKeyword

/-- ContactManager.filterContacts. -/
def filterContacts (cs : List Contact) (category keyword : String) :
    List Contact :=
  cs.filter (filterPred category keyword)

/-- The category condition in the words of the spec: the category argument
equals the wildcard all, or equals the contact category exactly. -/
def specCategoryMatch (category : String) (c : Contact) : Bool :=
  category == "all" || c.category == category

/-- The keyword condition in the words of the spec: the keyword is empty,
or is a case-insensitive substring of the name, the address, the category
or their phonetic-initial transliterations, or a raw non-lowercased
substring of the phone. -/
def specKeywordMatch (keyword : String) (c : Contact) : Bool :=
  keyword == "" ||
  jsIncludes (jsToLower c.name) (jsToLower keyword) ||
  jsIncludes (jsToLower c.address) (jsToLower keyword) ||
  jsIncludes (jsToLower c.category) (jsToLower keyword) ||
  jsIncludes (getPinyinInitials c.name) (jsToLower keyword) ||
  jsIncludes (getPinyinInitials c.address) (jsToLower keyword) ||
  jsIncludes (getPinyinInitials c.category) (jsToLower keyword) ||
  jsIncludes c.phone keyword

lemma filterPred_eq_spec (category keyword : String) (c : Contact) :
    filterPred category keyword c =
      (specCategoryMatch category c && specKeywordMatch keyword c) := by
  unfold filterPred specCategoryMatch specKeywordMatch
  by_cases h : (keyword == "") = true
  · simp [h]
  · simp only [eq_false_of_ne_true h, Bool.false_eq_true, if_false, Bool.false_or]
    congr 1
    generalize jsIncludes (jsToLower c.name) (jsToLower keyword) = a
    generalize jsIncludes (getPinyinInitials c.name) (jsToLower keyword) = b
    generalize jsIncludes c.phone keyword = e
    generalize jsIncludes (jsToLower c.address) (jsToLower keyword) = f
    generalize jsIncludes (getPinyinInitials c.address) (jsToLower keyword) = g
    generalize jsIncludes (jsToLower c.category) (jsToLower keyword) = i
    generalize jsIncludes (getPinyinInitials c.category) (jsToLower keyword) = j
    revert a b e f g i j
    decide

/-- Claim C9: filterContacts returns exactly the contacts of the
collection that satisfy both the category condition and the keyword
condition as the spec words them; in particular a contact whose category
does not match is excluded even when its fields match the keyword. -/
theorem C9_filter_characterization (cs : List Contact)
    (category keyword : String) (c : Contact) :
    c ∈ filterContacts cs category keyword ↔
      c ∈ cs ∧ specCategoryMatch category c = true ∧
        specKeywordMatch keyword c = true := by
  rw [filterContacts, List.mem_filter, filterPred_eq_spec]
  simp [Bool.and_eq_true, and_assoc]
